import Mathlib

/-!
# Verification of the handlebars `repeat` block helper

Shallow embedding of `RepeatHelper::call` from `src/lib.rs` of the
`handlebars-repeat` crate, together with proofs about its behaviour.

Modelling decisions:

* Dynamic JSON values delivered by the host engine are the inductive
  `Value`; `Value.as_u64` embeds serde_json's `as_u64` (a non-negative
  integer number representable in 64 bits yields `some`, everything else
  `none`).
* A scope frame (`BlockContext`) is its association list of local-variable
  bindings; `set_local_var` overwrites an existing binding of the same name
  or appends a fresh one, which is the map-insert semantics of the host's
  block context.
* The render context's block stack is a `List BlockContext` whose head is
  the currently-live frame: `rc.block()` reads the head, `push_block`
  conses, `pop_block` drops the head.
* An opaque compiled body is modelled by its render semantics: a function
  `RenderFn` from the current block stack to the text it appends to the
  output sink together with `none` (success) or `some e` (a propagated
  render failure).  A body render leaves the block stack it was given
  unchanged, reflecting that well-behaved nested content pops every frame
  it pushes.
* `RepeatHelper.call` returns a `CallResult`: the trace of stack
  operations and render events it performed, the text appended to the
  sink, the final block stack, and `none` for `Ok(())` or `some e` for a
  propagated `RenderErrorReason`.
-/

namespace HandlebarsRepeat

/-- Dynamic JSON-like values: helper parameters and local-variable values. -/
inductive Value where
  | null : Value
  | bool (b : Bool) : Value
  | num (n : Int) : Value
  | str (s : String) : Value
  deriving DecidableEq, Repr

/-- serde_json's `as_u64`: an integer number in `[0, 2^64)` converts,
anything else (strings, booleans, null, negative or oversized numbers)
yields `none`. -/
def Value.as_u64 : Value → Option Nat
  | .num n => if 0 ≤ n ∧ n < 2 ^ 64 then some n.toNat else none
  | _ => none

/-- A scope frame: the local-variable bindings of one block context. -/
structure BlockContext where
  localVars : List (String × Value)
  deriving DecidableEq, Repr

/-- `BlockContext::default()`: a frame with no bindings. -/
def BlockContext.defaultBlock : BlockContext := ⟨[]⟩

/-- Map-insert into a binding list: overwrite the binding of the same name
if present, otherwise append a fresh binding. -/
def insertLocal : List (String × Value) → String → Value → List (String × Value)
  | [], n, v => [(n, v)]
  | (k, w) :: t, n, v => if k = n then (n, v) :: t else (k, w) :: insertLocal t n v

/-- `BlockContext::set_local_var`. -/
def BlockContext.set_local_var (b : BlockContext) (n : String) (v : Value) : BlockContext :=
  ⟨insertLocal b.localVars n v⟩

/-- Lookup of a binding list. -/
def lookupLocal : List (String × Value) → String → Option Value
  | [], _ => none
  | (k, w) :: t, n => if k = n then some w else lookupLocal t n

/-- `BlockContext::get_local_var`: resolve a local variable in a frame. -/
def BlockContext.get_local_var (b : BlockContext) (n : String) : Option Value :=
  lookupLocal b.localVars n

/-- The error conditions of `handlebars::RenderErrorReason` the helper can
produce or propagate.  `RenderFailure` stands for any failure originating
from the host engine while rendering nested content. -/
inductive RenderErrorReason where
  | ParamNotFoundForIndex (name : String) (idx : Nat) : RenderErrorReason
  | ParamTypeMismatchForName (name : String) (param : String) (expected : String) : RenderErrorReason
  | BlockContentRequired : RenderErrorReason
  | RenderFailure (msg : String) : RenderErrorReason
  deriving DecidableEq, Repr

/-- Render semantics of an opaque compiled body: given the current block
stack it appends some text to the sink and either succeeds (`none`) or
fails (`some e`).  The stack handed to it is not net-mutated. -/
abbrev RenderFn := List BlockContext → String × Option RenderErrorReason

/-- Observable events of one helper invocation, in order: frame pushes and
pops on the render context, and render calls delegated to the host engine
(recording the block stack current at the render, the text the render
appended, and its outcome). -/
inductive Event where
  | push (b : BlockContext) : Event
  | renderBody (stack : List BlockContext) (out : String) (err : Option RenderErrorReason) : Event
  | pop : Event
  | renderInverse (stack : List BlockContext) (out : String) (err : Option RenderErrorReason) : Event
  deriving DecidableEq, Repr

/-- The helper invocation's view of the call site: `h.param(0)`,
`h.template()`, `h.inverse()`. -/
structure Helper where
  param0 : Option Value
  template : Option RenderFn
  inverse : Option RenderFn

/-- Result of one `RepeatHelper::call` invocation: the event trace, the
text appended to the output sink, the final block stack of the render
context, and `none` for `Ok(())` or `some e` for a returned error. -/
structure CallResult where
  trace : List Event
  output : String
  stack : List BlockContext
  result : Option RenderErrorReason
  deriving DecidableEq, Repr

/-- The frame built for iteration `i` of `count` (lines 109–112 of
`lib.rs`): clone the currently-live frame — or a default frame when none
is live — then set the three loop-locals on the clone. -/
def setLoopLocals (b : BlockContext) (i count : Nat) : BlockContext :=
  ((b.set_local_var "index" (.num (Int.ofNat i))).set_local_var
      "first" (.bool (decide (i = 0)))).set_local_var
      "last" (.bool (decide (i = count - 1)))

/-- The frame pushed for iteration `i` when the pre-iteration stack is
`rc`: `rc.block().cloned().unwrap_or_default()` with the loop-locals set. -/
def frameFor (rc : List BlockContext) (count i : Nat) : BlockContext :=
  setLoopLocals (rc.headD BlockContext.defaultBlock) i count

/-- The block stack during iteration `i`'s body render: the iteration's
frame pushed onto the pre-iteration stack. -/
def stackFor (rc : List BlockContext) (count i : Nat) : List BlockContext :=
  frameFor rc count i :: rc

/-- The `for i in 0..count` loop of `RepeatHelper::call` (lines 108–118),
iterating over the list of remaining indices.  Each step pushes the frame
for `i`, renders the primary body, and pops — unless the render fails, in
which case the `?` operator returns the error before the `pop_block` call,
leaving the frame on the stack. -/
def runLoop (tpl : RenderFn) (count : Nat) (rc : List BlockContext) : List Nat → CallResult
  | [] => ⟨[], "", rc, none⟩
  | i :: rest =>
    match tpl (stackFor rc count i) with
    | (o, some e) =>
      ⟨[.push (frameFor rc count i), .renderBody (stackFor rc count i) o (some e)],
        o, stackFor rc count i, some e⟩
    | (o, none) =>
      let r := runLoop tpl count rc rest
      ⟨.push (frameFor rc count i) :: .renderBody (stackFor rc count i) o none :: .pop :: r.trace,
        o ++ r.output, r.stack, r.result⟩

/-- The `repeat` helper object: a unit struct with no fields, exactly as
`pub struct RepeatHelper;`. -/
structure RepeatHelper where

/-- Embedding of `RepeatHelper::call` (lines 83–127 of `lib.rs`): validate
the positional argument's presence, its interpretability as `u64`, and the
presence of a block body, in that order; then run the iteration loop; then,
when `count == 0`, render the inverse body if one is attached. -/
def RepeatHelper.call (_self : RepeatHelper) (h : Helper) (rc0 : List BlockContext) : CallResult :=
  match h.param0 with
  | none => ⟨[], "", rc0, some (.ParamNotFoundForIndex "repeat" 0)⟩
  | some value =>
    match value.as_u64 with
    | none => ⟨[], "", rc0, some (.ParamTypeMismatchForName "repeat" "0" "u64")⟩
    | some count =>
      match h.template with
      | none => ⟨[], "", rc0, some .BlockContentRequired⟩
      | some tpl =>
        let r := runLoop tpl count rc0 (List.range count)
        match r.result with
        | some _ => r
        | none =>
          if count = 0 then
            match h.inverse with
            | some inv =>
              match inv r.stack with
              | (o, e) => ⟨r.trace ++ [.renderInverse r.stack o e], r.output ++ o, r.stack, e⟩
            | none => r
          else r

/-- The block stacks at which the primary body was rendered, in order. -/
def bodyStacks : List Event → List (List BlockContext)
  | [] => []
  | .renderBody st _ _ :: t => st :: bodyStacks t
  | _ :: t => bodyStacks t

/-- The frames pushed onto the render context, in order. -/
def pushedBlocks : List Event → List BlockContext
  | [] => []
  | .push b :: t => b :: pushedBlocks t
  | _ :: t => pushedBlocks t

/-- The block stacks at which the inverse body was rendered, in order. -/
def inverseStacks : List Event → List (List BlockContext)
  | [] => []
  | .renderInverse st _ _ :: t => st :: inverseStacks t
  | _ :: t => inverseStacks t

/-- The trace of a run of the loop in which every body render succeeds:
push, render, pop per index. -/
def iterTrace (tpl : RenderFn) (rc : List BlockContext) (count : Nat) : List Nat → List Event
  | [] => []
  | i :: t =>
    .push (frameFor rc count i) ::
      .renderBody (stackFor rc count i) (tpl (stackFor rc count i)).1 none ::
      .pop :: iterTrace tpl rc count t

/-- The sink output of a run of the loop in which every body render
succeeds: the per-iteration outputs concatenated in index order. -/
def iterOutput (tpl : RenderFn) (rc : List BlockContext) (count : Nat) : List Nat → String
  | [] => ""
  | i :: t => (tpl (stackFor rc count i)).1 ++ iterOutput tpl rc count t

/-- A concrete body whose render always succeeds, appending `"hi"`. -/
def okBody : RenderFn := fun _ => ("hi", none)

/-- A concrete body whose render always fails, after appending nothing. -/
def badBody : RenderFn := fun _ => ("", some (.RenderFailure "boom"))

/-- A concrete fallback body that renders `"bar"`. -/
def barBody : RenderFn := fun _ => ("bar", none)

/-- A concrete body that renders `"A"` when the loop-local `index` resolves
to `0` and otherwise appends `"B"` and fails. -/
def failAtOne : RenderFn := fun st =>
  if (st.headD BlockContext.defaultBlock).get_local_var "index" = some (.num 0) then
    ("A", none)
  else
    ("B", some (.RenderFailure "x"))

/-! ## Binding-list lemmas -/

theorem lookupLocal_insert_self : ∀ (l : List (String × Value)) (k : String) (v : Value),
    lookupLocal (insertLocal l k v) k = some v
  | [], k, v => by simp [insertLocal, lookupLocal]
  | (k0, w) :: t, k, v => by
    by_cases h : k0 = k
    · simp [insertLocal, lookupLocal, h]
    · simp [insertLocal, lookupLocal, h, lookupLocal_insert_self t k v]

theorem lookupLocal_insert_ne : ∀ (l : List (String × Value)) (k : String) (v : Value)
    (n : String), n ≠ k → lookupLocal (insertLocal l k v) n = lookupLocal l n
  | [], k, v, n, h => by simp [insertLocal, lookupLocal, Ne.symm h]
  | (k0, w) :: t, k, v, n, h => by
    by_cases hk : k0 = k
    · subst hk
      simp [insertLocal, lookupLocal, Ne.symm h]
    · simp only [insertLocal, if_neg hk, lookupLocal]
      by_cases hn : k0 = n
      · simp [hn]
      · simp [hn, lookupLocal_insert_ne t k v n h]

theorem setLoopLocals_index (b : BlockContext) (i c : Nat) :
    (setLoopLocals b i c).get_local_var "index" = some (.num (Int.ofNat i)) := by
  unfold setLoopLocals BlockContext.get_local_var BlockContext.set_local_var
  rw [lookupLocal_insert_ne _ _ _ _ (by decide), lookupLocal_insert_ne _ _ _ _ (by decide),
    lookupLocal_insert_self]

theorem setLoopLocals_first (b : BlockContext) (i c : Nat) :
    (setLoopLocals b i c).get_local_var "first" = some (.bool (decide (i = 0))) := by
  unfold setLoopLocals BlockContext.get_local_var BlockContext.set_local_var
  rw [lookupLocal_insert_ne _ _ _ _ (by decide), lookupLocal_insert_self]

theorem setLoopLocals_last (b : BlockContext) (i c : Nat) :
    (setLoopLocals b i c).get_local_var "last" = some (.bool (decide (i = c - 1))) := by
  unfold setLoopLocals BlockContext.get_local_var BlockContext.set_local_var
  rw [lookupLocal_insert_self]

theorem setLoopLocals_other (b : BlockContext) (i c : Nat) (n : String)
    (h1 : n ≠ "index") (h2 : n ≠ "first") (h3 : n ≠ "last") :
    (setLoopLocals b i c).get_local_var n = b.get_local_var n := by
  unfold setLoopLocals BlockContext.get_local_var BlockContext.set_local_var
  rw [lookupLocal_insert_ne _ _ _ _ h3, lookupLocal_insert_ne _ _ _ _ h2,
    lookupLocal_insert_ne _ _ _ _ h1]

/-! ## Trace-observer lemmas -/

theorem bodyStacks_append (a b : List Event) :
    bodyStacks (a ++ b) = bodyStacks a ++ bodyStacks b := by
  induction a with
  | nil => rfl
  | cons e t ih => cases e <;> simp [bodyStacks, ih]

theorem pushedBlocks_append (a b : List Event) :
    pushedBlocks (a ++ b) = pushedBlocks a ++ pushedBlocks b := by
  induction a with
  | nil => rfl
  | cons e t ih => cases e <;> simp [pushedBlocks, ih]

theorem inverseStacks_append (a b : List Event) :
    inverseStacks (a ++ b) = inverseStacks a ++ inverseStacks b := by
  induction a with
  | nil => rfl
  | cons e t ih => cases e <;> simp [inverseStacks, ih]

theorem bodyStacks_iterTrace (tpl : RenderFn) (rc : List BlockContext) (count : Nat) :
    ∀ is : List Nat, bodyStacks (iterTrace tpl rc count is) = is.map (stackFor rc count)
  | [] => rfl
  | i :: t => by simp [iterTrace, bodyStacks, bodyStacks_iterTrace tpl rc count t]

theorem pushedBlocks_iterTrace (tpl : RenderFn) (rc : List BlockContext) (count : Nat) :
    ∀ is : List Nat, pushedBlocks (iterTrace tpl rc count is) = is.map (frameFor rc count)
  | [] => rfl
  | i :: t => by simp [iterTrace, pushedBlocks, pushedBlocks_iterTrace tpl rc count t]

theorem inverseStacks_iterTrace (tpl : RenderFn) (rc : List BlockContext) (count : Nat) :
    ∀ is : List Nat, inverseStacks (iterTrace tpl rc count is) = []
  | [] => rfl
  | i :: t => by simp [iterTrace, inverseStacks, inverseStacks_iterTrace tpl rc count t]

/-! ## Loop lemmas -/

theorem runLoop_success (tpl : RenderFn) (count : Nat) :
    ∀ (is : List Nat) (rc : List BlockContext),
      (∀ i ∈ is, (tpl (stackFor rc count i)).2 = none) →
      runLoop tpl count rc is =
        ⟨iterTrace tpl rc count is, iterOutput tpl rc count is, rc, none⟩
  | [], rc, _ => rfl
  | i :: t, rc, hok => by
    have h1 : (tpl (stackFor rc count i)).2 = none := hok i (by simp)
    have h2 := runLoop_success tpl count t rc (fun j hj => hok j (by simp [hj]))
    cases heq : tpl (stackFor rc count i) with
    | mk o e =>
      rw [heq] at h1
      simp only at h1
      subst h1
      simp [runLoop, heq, h2, iterTrace, iterOutput]

theorem runLoop_failure (tpl : RenderFn) (count : Nat) :
    ∀ (is1 : List Nat) (rc : List BlockContext) (k : Nat) (is2 : List Nat)
      (o : String) (e : RenderErrorReason),
      (∀ i ∈ is1, (tpl (stackFor rc count i)).2 = none) →
      tpl (stackFor rc count k) = (o, some e) →
      runLoop tpl count rc (is1 ++ k :: is2) =
        ⟨iterTrace tpl rc count is1 ++
            [.push (frameFor rc count k), .renderBody (stackFor rc count k) o (some e)],
          iterOutput tpl rc count is1 ++ o, stackFor rc count k, some e⟩
  | [], rc, k, is2, o, e, _, hf => by
    simp [runLoop, hf, iterTrace, iterOutput, String.empty_append]
  | i :: t, rc, k, is2, o, e, hok, hf => by
    have h1 : (tpl (stackFor rc count i)).2 = none := hok i (by simp)
    have ih := runLoop_failure tpl count t rc k is2 o e (fun j hj => hok j (by simp [hj])) hf
    cases heq : tpl (stackFor rc count i) with
    | mk oi ei =>
      rw [heq] at h1
      simp only at h1
      subst h1
      simp [runLoop, heq, ih, iterTrace, iterOutput, String.append_assoc]

theorem runLoop_result_none_stack (tpl : RenderFn) (count : Nat) :
    ∀ (is : List Nat) (rc : List BlockContext),
      (runLoop tpl count rc is).result = none → (runLoop tpl count rc is).stack = rc
  | [], rc, _ => rfl
  | i :: t, rc, hres => by
    cases heq : tpl (stackFor rc count i) with
    | mk o e =>
      cases e with
      | some e => simp [runLoop, heq] at hres
      | none =>
        have := runLoop_result_none_stack tpl count t rc
        simp only [runLoop, heq] at hres ⊢
        exact this hres

theorem runLoop_result_some_stack (tpl : RenderFn) (count : Nat) :
    ∀ (is : List Nat) (rc : List BlockContext) (e : RenderErrorReason),
      (runLoop tpl count rc is).result = some e →
      ∃ i ∈ is, (runLoop tpl count rc is).stack = stackFor rc count i
  | [], rc, e, hres => by simp [runLoop] at hres
  | i :: t, rc, e, hres => by
    cases heq : tpl (stackFor rc count i) with
    | mk o ei =>
      cases ei with
      | some ei => exact ⟨i, by simp, by simp [runLoop, heq]⟩
      | none =>
        simp only [runLoop, heq] at hres ⊢
        obtain ⟨j, hj, hst⟩ := runLoop_result_some_stack tpl count t rc e hres
        exact ⟨j, by simp [hj], hst⟩

theorem inverseStacks_runLoop (tpl : RenderFn) (count : Nat) :
    ∀ (is : List Nat) (rc : List BlockContext),
      inverseStacks (runLoop tpl count rc is).trace = []
  | [], rc => rfl
  | i :: t, rc => by
    cases heq : tpl (stackFor rc count i) with
    | mk o e =>
      cases e with
      | some e => simp [runLoop, heq, inverseStacks]
      | none =>
        simp only [runLoop, heq]
        simp [inverseStacks, inverseStacks_runLoop tpl count t rc]

/-! ## Invocation-level lemmas -/

theorem call_success_pos (s : RepeatHelper) (h : Helper) (rc0 : List BlockContext)
    (v : Value) (count : Nat) (tpl : RenderFn)
    (hp : h.param0 = some v) (hc : v.as_u64 = some count) (ht : h.template = some tpl)
    (hpos : 0 < count)
    (hok : ∀ i ∈ List.range count, (tpl (stackFor rc0 count i)).2 = none) :
    s.call h rc0 =
      ⟨iterTrace tpl rc0 count (List.range count),
        iterOutput tpl rc0 count (List.range count), rc0, none⟩ := by
  have hne : count ≠ 0 := by omega
  have hr := runLoop_success tpl count (List.range count) rc0 hok
  simp [RepeatHelper.call, hp, hc, ht, hr, hne]

theorem call_zero_inverse (s : RepeatHelper) (h : Helper) (rc0 : List BlockContext)
    (v : Value) (tpl inv : RenderFn)
    (hp : h.param0 = some v) (hc : v.as_u64 = some 0) (ht : h.template = some tpl)
    (hi : h.inverse = some inv) :
    s.call h rc0 =
      ⟨[.renderInverse rc0 (inv rc0).1 (inv rc0).2], (inv rc0).1, rc0, (inv rc0).2⟩ := by
  cases heq : inv rc0 with
  | mk o e =>
    simp [RepeatHelper.call, hp, hc, ht, hi, runLoop, heq, String.empty_append]

theorem call_zero_no_inverse (s : RepeatHelper) (h : Helper) (rc0 : List BlockContext)
    (v : Value) (tpl : RenderFn)
    (hp : h.param0 = some v) (hc : v.as_u64 = some 0) (ht : h.template = some tpl)
    (hi : h.inverse = none) :
    s.call h rc0 = ⟨[], "", rc0, none⟩ := by
  simp [RepeatHelper.call, hp, hc, ht, hi, runLoop]

theorem call_failure (s : RepeatHelper) (h : Helper) (rc0 : List BlockContext)
    (v : Value) (count : Nat) (tpl : RenderFn)
    (hp : h.param0 = some v) (hc : v.as_u64 = some count) (ht : h.template = some tpl)
    (k : Nat) (o : String) (e : RenderErrorReason) (hk : k < count)
    (hok : ∀ i, i < k → (tpl (stackFor rc0 count i)).2 = none)
    (hf : tpl (stackFor rc0 count k) = (o, some e)) :
    s.call h rc0 =
      ⟨iterTrace tpl rc0 count (List.range k) ++
          [.push (frameFor rc0 count k), .renderBody (stackFor rc0 count k) o (some e)],
        iterOutput tpl rc0 count (List.range k) ++ o, stackFor rc0 count k, some e⟩ := by
  have hsplit : List.range count = List.range k ++ k ::
      List.map (fun x => k + 1 + x) (List.range (count - (k + 1))) := by
    have : count = (k + 1) + (count - (k + 1)) := by omega
    rw [this, List.range_add, List.range_succ]
    simp
  have hr := runLoop_failure tpl count (List.range k) rc0 k
    (List.map (fun x => k + 1 + x) (List.range (count - (k + 1)))) o e
    (fun i hi => hok i (List.mem_range.mp hi)) hf
  rw [← hsplit] at hr
  simp [RepeatHelper.call, hp, hc, ht, hr]

theorem call_pos_eq_runLoop (s : RepeatHelper) (h : Helper) (rc0 : List BlockContext)
    (v : Value) (count : Nat) (tpl : RenderFn)
    (hp : h.param0 = some v) (hc : v.as_u64 = some count) (ht : h.template = some tpl)
    (hne : count ≠ 0) :
    s.call h rc0 = runLoop tpl count rc0 (List.range count) := by
  simp only [RepeatHelper.call, hp, hc, ht]
  cases hres : (runLoop tpl count rc0 (List.range count)).result with
  | some e => simp [hres]
  | none => simp [hres, hne]

/-! ## Claims -/

/-- C5: validation runs in the order argument presence (`ArgumentMissing`
naming helper `"repeat"` and position `0`), then interpretability as a
non-negative integer (`ArgumentTypeMismatch`), then primary-body presence
(`BlockBodyRequired`, even when the resolved count is zero and a fallback
exists); each failure short-circuits the invocation before any iteration,
with an empty event trace and zero output. -/
theorem validation_order_short_circuits (s : RepeatHelper) (h : Helper)
    (rc0 : List BlockContext) :
    (h.param0 = none →
      s.call h rc0 = ⟨[], "", rc0, some (.ParamNotFoundForIndex "repeat" 0)⟩) ∧
    (∀ v, h.param0 = some v → v.as_u64 = none →
      s.call h rc0 = ⟨[], "", rc0, some (.ParamTypeMismatchForName "repeat" "0" "u64")⟩) ∧
    (∀ v c, h.param0 = some v → v.as_u64 = some c → h.template = none →
      s.call h rc0 = ⟨[], "", rc0, some .BlockContentRequired⟩) := by
  refine ⟨fun hp => by simp [RepeatHelper.call, hp],
    fun v hp hc => by simp [RepeatHelper.call, hp, hc],
    fun v c hp hc ht => by simp [RepeatHelper.call, hp, hc, ht]⟩

/-- Witness for C5: a missing argument, a string argument, and a missing
body with resolved count zero and a fallback attached, each at a concrete
invocation. -/
theorem validation_order_short_circuits_witness :
    (RepeatHelper.mk.call ⟨none, none, none⟩ []
        = ⟨[], "", [], some (.ParamNotFoundForIndex "repeat" 0)⟩) ∧
    (RepeatHelper.mk.call ⟨some (.str "foo"), none, none⟩ []
        = ⟨[], "", [], some (.ParamTypeMismatchForName "repeat" "0" "u64")⟩) ∧
    (RepeatHelper.mk.call ⟨some (.num 0), none, some barBody⟩ []
        = ⟨[], "", [], some .BlockContentRequired⟩) :=
  ⟨(validation_order_short_circuits RepeatHelper.mk ⟨none, none, none⟩ []).1 rfl,
    (validation_order_short_circuits RepeatHelper.mk ⟨some (.str "foo"), none, none⟩ []).2.1
      (.str "foo") rfl (by decide),
    (validation_order_short_circuits RepeatHelper.mk ⟨some (.num 0), none, some barBody⟩ []).2.2
      (.num 0) 0 rfl (by decide) rfl⟩

/-- C6 counterexample: an invocation with no block body and an absent
argument fails with `ParamNotFoundForIndex` (the argument check runs
first), not with `BlockContentRequired`, so the no-body failure is not
independent of the argument. -/
theorem no_body_with_missing_arg_error :
    ((RepeatHelper.mk.call ⟨none, none, none⟩ []).result
        = some (.ParamNotFoundForIndex "repeat" 0)) ∧
    ((RepeatHelper.mk.call ⟨none, none, none⟩ []).result
        ≠ some .BlockContentRequired) := by
  decide

/-- C6 (amended): an invocation with no block body always fails, and it
fails with `BlockBodyRequired` precisely when the count argument is
present and interpretable as a non-negative integer (an absent or
uninterpretable argument fails its own earlier check instead). -/
theorem no_body_always_fails (s : RepeatHelper) (h : Helper) (rc0 : List BlockContext)
    (hnb : h.template = none) :
    ((s.call h rc0).result ≠ none) ∧
    (∀ v c, h.param0 = some v → v.as_u64 = some c →
      (s.call h rc0).result = some .BlockContentRequired) := by
  constructor
  · cases hp : h.param0 with
    | none => simp [RepeatHelper.call, hp]
    | some v =>
      cases hc : v.as_u64 with
      | none => simp [RepeatHelper.call, hp, hc]
      | some c => simp [RepeatHelper.call, hp, hc, hnb]
  · intro v c hp hc
    simp [RepeatHelper.call, hp, hc, hnb]

/-- Witness for C6 (amended): a concrete no-body invocation with a valid
count argument fails with `BlockContentRequired`. -/
theorem no_body_always_fails_witness :
    ((RepeatHelper.mk.call ⟨some (.num 1), none, none⟩ []).result ≠ none) ∧
    ((RepeatHelper.mk.call ⟨some (.num 1), none, none⟩ []).result
        = some .BlockContentRequired) :=
  ⟨(no_body_always_fails RepeatHelper.mk ⟨some (.num 1), none, none⟩ [] rfl).1,
    (no_body_always_fails RepeatHelper.mk ⟨some (.num 1), none, none⟩ [] rfl).2
      (.num 1) 1 rfl (by decide)⟩

/-- C1 counterexample: with `count = 2` and a primary body whose first
render fails, the invocation returns the propagated error but the frame
pushed for the failing iteration is not popped — the final block stack is
not the pre-invocation (empty) stack, because the `?` operator on
`template.render` returns before `rc.pop_block()` runs. -/
theorem error_leaves_frame_pushed :
    ((RepeatHelper.mk.call ⟨some (.num 2), some badBody, none⟩ []).result
        = some (.RenderFailure "boom")) ∧
    ((RepeatHelper.mk.call ⟨some (.num 2), some badBody, none⟩ []).stack ≠ []) := by
  decide

/-- C1 (amended): for every invocation with `count > 0`, the scope stack
is restored to its pre-invocation state when every body render succeeds;
when a body render fails, the frame pushed for the failing iteration
remains on the stack (the error propagates before the pop), so the final
stack is the pre-invocation stack with exactly that one frame on top. -/
theorem stack_restored_only_on_success (s : RepeatHelper) (h : Helper)
    (rc0 : List BlockContext) (v : Value) (count : Nat) (tpl : RenderFn)
    (hp : h.param0 = some v) (hc : v.as_u64 = some count) (ht : h.template = some tpl)
    (hpos : 0 < count) :
    ((s.call h rc0).result = none → (s.call h rc0).stack = rc0) ∧
    (∀ e, (s.call h rc0).result = some e →
      ∃ i, i < count ∧ (s.call h rc0).stack = stackFor rc0 count i) := by
  rw [call_pos_eq_runLoop s h rc0 v count tpl hp hc ht (by omega)]
  refine ⟨runLoop_result_none_stack tpl count (List.range count) rc0, fun e hres => ?_⟩
  obtain ⟨i, hi, hst⟩ := runLoop_result_some_stack tpl count (List.range count) rc0 e hres
  exact ⟨i, List.mem_range.mp hi, hst⟩

/-- Witness for C1 (amended): a concrete successful invocation with
`count = 1` ends with the block stack restored to its pre-invocation
(empty) state. -/
theorem stack_restored_only_on_success_witness :
    ((RepeatHelper.mk.call ⟨some (.num 1), some okBody, none⟩ []).stack = []) ∧
    ((RepeatHelper.mk.call ⟨some (.num 1), some okBody, none⟩ []).result = none) :=
  ⟨(stack_restored_only_on_success RepeatHelper.mk ⟨some (.num 1), some okBody, none⟩ []
      (.num 1) 1 okBody rfl (by decide) rfl (by decide)).1 (by decide),
    by decide⟩

/-- C10: the helper is deterministic and stateless — `RepeatHelper` is a
unit struct carrying no state, so any two helper instances invoked with
the same argument, bodies and initial block stack perform the same trace
of pushes, renders and pops, append the same output, and return the same
result; nothing carries over between registrations or invocations. -/
theorem call_deterministic_stateless (s1 s2 : RepeatHelper) (h : Helper)
    (rc0 : List BlockContext) : s1.call h rc0 = s2.call h rc0 := by
  cases s1
  cases s2
  rfl

/-- C2: for every `count ≥ 1`, when the argument and primary body are
valid and every body render succeeds, the primary body is rendered exactly
`count` times and the loop-local `index` resolves, at the successive
renders, to `0, 1, …, count - 1` in strictly ascending order. -/
theorem body_rendered_count_times_ascending_index (s : RepeatHelper) (h : Helper)
    (rc0 : List BlockContext) (v : Value) (count : Nat) (tpl : RenderFn)
    (hp : h.param0 = some v) (hc : v.as_u64 = some count) (ht : h.template = some tpl)
    (hpos : 1 ≤ count) (hok : ∀ st, (tpl st).2 = none) :
    (bodyStacks (s.call h rc0).trace).map
        (fun st => (st.headD BlockContext.defaultBlock).get_local_var "index")
      = (List.range count).map (fun i => some (Value.num (Int.ofNat i))) := by
  rw [call_success_pos s h rc0 v count tpl hp hc ht hpos (fun i _ => hok _)]
  simp [bodyStacks_iterTrace, stackFor, frameFor, setLoopLocals_index]

/-- Witness for C2: with `count = 3` and an always-succeeding body, the
three successive renders see `index = 0, 1, 2`. -/
theorem body_rendered_count_times_ascending_index_witness :
    (bodyStacks (RepeatHelper.mk.call ⟨some (.num 3), some okBody, none⟩ []).trace).map
        (fun st => (st.headD BlockContext.defaultBlock).get_local_var "index")
      = (List.range 3).map (fun i => some (Value.num (Int.ofNat i))) :=
  body_rendered_count_times_ascending_index RepeatHelper.mk
    ⟨some (.num 3), some okBody, none⟩ [] (.num 3) 3 okBody rfl (by decide) rfl
    (by decide) (fun _ => rfl)

/-- C3: for every `count ≥ 1` and every iteration of a valid invocation
whose body renders succeed, the loop-local `first` resolves to true
exactly when `index = 0`, and `last` resolves to true exactly when
`index = count - 1`; for `count = 1` both are true in the sole
iteration. -/
theorem first_iff_zero_last_iff_pred (s : RepeatHelper) (h : Helper)
    (rc0 : List BlockContext) (v : Value) (count : Nat) (tpl : RenderFn)
    (hp : h.param0 = some v) (hc : v.as_u64 = some count) (ht : h.template = some tpl)
    (hpos : 1 ≤ count) (hok : ∀ st, (tpl st).2 = none) :
    (bodyStacks (s.call h rc0).trace).map
        (fun st => ((st.headD BlockContext.defaultBlock).get_local_var "first",
          (st.headD BlockContext.defaultBlock).get_local_var "last"))
      = (List.range count).map
          (fun i => (some (Value.bool (decide (i = 0))),
            some (Value.bool (decide (i = count - 1))))) := by
  rw [call_success_pos s h rc0 v count tpl hp hc ht hpos (fun i _ => hok _)]
  simp [bodyStacks_iterTrace, stackFor, frameFor, setLoopLocals_first, setLoopLocals_last]

/-- Witness for C3: with `count = 1` the sole render sees `first = true`
and `last = true`. -/
theorem first_iff_zero_last_iff_pred_witness :
    (bodyStacks (RepeatHelper.mk.call ⟨some (.num 1), some okBody, none⟩ []).trace).map
        (fun st => ((st.headD BlockContext.defaultBlock).get_local_var "first",
          (st.headD BlockContext.defaultBlock).get_local_var "last"))
      = (List.range 1).map
          (fun i => (some (Value.bool (decide (i = 0))),
            some (Value.bool (decide (i = 1 - 1))))) :=
  first_iff_zero_last_iff_pred RepeatHelper.mk ⟨some (.num 1), some okBody, none⟩ []
    (.num 1) 1 okBody rfl (by decide) rfl (by decide) (fun _ => rfl)

theorem setLoopLocals_defaultBlock (i c : Nat) :
    setLoopLocals BlockContext.defaultBlock i c =
      ⟨[("index", .num (Int.ofNat i)), ("first", .bool (decide (i = 0))),
        ("last", .bool (decide (i = c - 1)))]⟩ := rfl

/-- C9: when an iteration begins with no currently-live frame (empty block
stack), the frame pushed for that iteration is the default (empty) frame
holding exactly the three loop-local bindings `index`, `first`, `last` and
nothing else; building and pushing it is a total operation. -/
theorem empty_stack_default_frame (s : RepeatHelper) (h : Helper)
    (v : Value) (count : Nat) (tpl : RenderFn)
    (hp : h.param0 = some v) (hc : v.as_u64 = some count) (ht : h.template = some tpl)
    (hok : ∀ st, (tpl st).2 = none) :
    pushedBlocks (s.call h []).trace
      = (List.range count).map (fun i =>
          BlockContext.mk [("index", .num (Int.ofNat i)),
            ("first", .bool (decide (i = 0))),
            ("last", .bool (decide (i = count - 1)))]) := by
  rcases Nat.eq_zero_or_pos count with hz | hpos
  · subst hz
    cases hi : h.inverse with
    | some inv =>
      rw [call_zero_inverse s h [] v tpl inv hp hc ht hi]
      simp [pushedBlocks]
    | none =>
      rw [call_zero_no_inverse s h [] v tpl hp hc ht hi]
      simp [pushedBlocks]
  · rw [call_success_pos s h [] v count tpl hp hc ht hpos (fun i _ => hok _)]
    simp [pushedBlocks_iterTrace, frameFor, setLoopLocals_defaultBlock]

/-- Witness for C9: with `count = 2` on an empty stack, the two pushed
frames hold exactly `index`, `first`, `last`. -/
theorem empty_stack_default_frame_witness :
    pushedBlocks (RepeatHelper.mk.call ⟨some (.num 2), some okBody, none⟩ []).trace
      = (List.range 2).map (fun i =>
          BlockContext.mk [("index", .num (Int.ofNat i)),
            ("first", .bool (decide (i = 0))),
            ("last", .bool (decide (i = 2 - 1)))]) :=
  empty_stack_default_frame RepeatHelper.mk ⟨some (.num 2), some okBody, none⟩
    (.num 2) 2 okBody rfl (by decide) rfl (fun _ => rfl)

/-- C4: the fallback body is rendered exactly when `count = 0` and a
fallback is attached (the trace then holds exactly one inverse render and
it happens at the unchanged entry stack, with no frame pushed and no
loop-locals introduced); `count = 0` with no fallback produces no events,
no output and no error. -/
theorem inverse_rendered_iff_zero_count (s : RepeatHelper) (h : Helper)
    (rc0 : List BlockContext) (v : Value) (count : Nat) (tpl : RenderFn)
    (hp : h.param0 = some v) (hc : v.as_u64 = some count) (ht : h.template = some tpl) :
    ((inverseStacks (s.call h rc0).trace).length
        = if count = 0 ∧ (h.inverse).isSome then 1 else 0) ∧
    (∀ inv, count = 0 → h.inverse = some inv →
      s.call h rc0 = ⟨[.renderInverse rc0 (inv rc0).1 (inv rc0).2],
        (inv rc0).1, rc0, (inv rc0).2⟩) ∧
    (count = 0 → h.inverse = none → s.call h rc0 = ⟨[], "", rc0, none⟩) := by
  refine ⟨?_, fun inv hz hi => ?_, fun hz hi => ?_⟩
  · rcases Nat.eq_zero_or_pos count with hz | hpos
    · subst hz
      cases hi : h.inverse with
      | some inv =>
        rw [call_zero_inverse s h rc0 v tpl inv hp hc ht hi]
        simp [inverseStacks, hi]
      | none =>
        rw [call_zero_no_inverse s h rc0 v tpl hp hc ht hi]
        simp [inverseStacks, hi]
    · have hne : ¬count = 0 := by omega
      rw [call_pos_eq_runLoop s h rc0 v count tpl hp hc ht hne]
      simp [inverseStacks_runLoop, hne]
  · subst hz
    exact call_zero_inverse s h rc0 v tpl inv hp hc ht hi
  · subst hz
    exact call_zero_no_inverse s h rc0 v tpl hp hc ht hi

/-- Witness for C4: at `count = 0` a present fallback is rendered exactly
once at the unchanged entry stack, and an absent fallback yields the empty
result. -/
theorem inverse_rendered_iff_zero_count_witness :
    ((inverseStacks (RepeatHelper.mk.call
          ⟨some (.num 0), some okBody, some barBody⟩ []).trace).length
        = if (0 : Nat) = 0 ∧ (some barBody).isSome then 1 else 0) ∧
    (RepeatHelper.mk.call ⟨some (.num 0), some okBody, some barBody⟩ []
        = ⟨[.renderInverse [] (barBody []).1 (barBody []).2],
            (barBody []).1, [], (barBody []).2⟩) ∧
    (RepeatHelper.mk.call ⟨some (.num 0), some okBody, none⟩ [] = ⟨[], "", [], none⟩) := by
  have h1 := inverse_rendered_iff_zero_count RepeatHelper.mk
    ⟨some (.num 0), some okBody, some barBody⟩ [] (.num 0) 0 okBody rfl (by decide) rfl
  have h2 := inverse_rendered_iff_zero_count RepeatHelper.mk
    ⟨some (.num 0), some okBody, none⟩ [] (.num 0) 0 okBody rfl (by decide) rfl
  exact ⟨h1.1, h1.2.1 barBody rfl rfl, h2.2.2 rfl rfl⟩

/-- C7: a failing body render is propagated as the invocation's result
unmodified; the renders performed are exactly those up to and including
the failing iteration (nothing is rendered past the failing point); and
the output already appended — the successful iterations' text plus
whatever the failing render appended — is retained, never retracted.
The same holds for a failing fallback render at `count = 0`. -/
theorem render_failure_propagates_unmodified (s : RepeatHelper) (h : Helper)
    (rc0 : List BlockContext) (v : Value) (count : Nat) (tpl : RenderFn)
    (hp : h.param0 = some v) (hc : v.as_u64 = some count) (ht : h.template = some tpl) :
    (∀ k o e, k < count →
      (∀ i, i < k → (tpl (stackFor rc0 count i)).2 = none) →
      tpl (stackFor rc0 count k) = (o, some e) →
      (s.call h rc0).result = some e ∧
      bodyStacks (s.call h rc0).trace = (List.range (k + 1)).map (stackFor rc0 count) ∧
      (s.call h rc0).output = iterOutput tpl rc0 count (List.range k) ++ o) ∧
    (∀ inv o e, count = 0 → h.inverse = some inv → inv rc0 = (o, some e) →
      (s.call h rc0).result = some e ∧ (s.call h rc0).output = o) := by
  constructor
  · intro k o e hk hok hf
    rw [call_failure s h rc0 v count tpl hp hc ht k o e hk hok hf]
    refine ⟨rfl, ?_, rfl⟩
    simp [bodyStacks_append, bodyStacks_iterTrace, bodyStacks, List.range_succ, stackFor]
  · intro inv o e hz hi hf
    subst hz
    rw [call_zero_inverse s h rc0 v tpl inv hp hc ht hi, hf]
    exact ⟨rfl, rfl⟩

/-- Witness for C7: with `count = 2` and a body that succeeds at index 0
appending `"A"` and fails at index 1 after appending `"B"`, the invocation
returns exactly the body's failure, renders exactly iterations 0 and 1,
and keeps `"A"` and the partial `"B"` in the sink. -/
theorem render_failure_propagates_unmodified_witness :
    ((RepeatHelper.mk.call ⟨some (.num 2), some failAtOne, none⟩ []).result
        = some (.RenderFailure "x")) ∧
    (bodyStacks (RepeatHelper.mk.call ⟨some (.num 2), some failAtOne, none⟩ []).trace
        = (List.range (1 + 1)).map (stackFor [] 2)) ∧
    ((RepeatHelper.mk.call ⟨some (.num 2), some failAtOne, none⟩ []).output
        = iterOutput failAtOne [] 2 (List.range 1) ++ "B") :=
  (render_failure_propagates_unmodified RepeatHelper.mk
      ⟨some (.num 2), some failAtOne, none⟩ [] (.num 2) 2 failAtOne rfl (by decide) rfl).1
    1 "B" (.RenderFailure "x") (by decide) (by decide) (by decide)

/-- C8: the pushed frame copies the currently-live frame's bindings as its
base and then sets the three loop-locals on the copy: the loop names
resolve to the loop values (shadowing any identically-named enclosing
binding), every other name resolves exactly as in the base frame, the
frames pushed by a valid all-success invocation are precisely those
copies, and the invocation ends with the enclosing stack — hence every
enclosing frame's bindings — unchanged, so nested pushes and pops leave an
outer invocation's loop-locals intact. -/
theorem frame_shadows_and_restores (s : RepeatHelper) (h : Helper) (rc0 : List BlockContext)
    (v : Value) (count : Nat) (tpl : RenderFn)
    (hp : h.param0 = some v) (hc : v.as_u64 = some count) (ht : h.template = some tpl)
    (hok : ∀ st, (tpl st).2 = none) :
    (∀ b i c, (setLoopLocals b i c).get_local_var "index" = some (.num (Int.ofNat i)) ∧
      (setLoopLocals b i c).get_local_var "first" = some (.bool (decide (i = 0))) ∧
      (setLoopLocals b i c).get_local_var "last" = some (.bool (decide (i = c - 1)))) ∧
    (∀ b i c n, n ≠ "index" → n ≠ "first" → n ≠ "last" →
      (setLoopLocals b i c).get_local_var n = b.get_local_var n) ∧
    (pushedBlocks (s.call h rc0).trace
      = (List.range count).map (fun i =>
          setLoopLocals (rc0.headD BlockContext.defaultBlock) i count)) ∧
    ((s.call h rc0).stack = rc0) := by
  refine ⟨fun b i c => ⟨setLoopLocals_index b i c, setLoopLocals_first b i c,
      setLoopLocals_last b i c⟩,
    fun b i c n h1 h2 h3 => setLoopLocals_other b i c n h1 h2 h3, ?_, ?_⟩
  · rcases Nat.eq_zero_or_pos count with hz | hpos
    · subst hz
      cases hi : h.inverse with
      | some inv =>
        rw [call_zero_inverse s h rc0 v tpl inv hp hc ht hi]
        simp [pushedBlocks]
      | none =>
        rw [call_zero_no_inverse s h rc0 v tpl hp hc ht hi]
        simp [pushedBlocks]
    · rw [call_success_pos s h rc0 v count tpl hp hc ht hpos (fun i _ => hok _)]
      simp [pushedBlocks_iterTrace, frameFor]
  · rcases Nat.eq_zero_or_pos count with hz | hpos
    · subst hz
      cases hi : h.inverse with
      | some inv => rw [call_zero_inverse s h rc0 v tpl inv hp hc ht hi]
      | none => rw [call_zero_no_inverse s h rc0 v tpl hp hc ht hi]
    · rw [call_success_pos s h rc0 v count tpl hp hc ht hpos (fun i _ => hok _)]

/-- Witness for C8: on a stack whose live frame binds `user`, the frame
built for iteration 1 of 3 shadows `index` with `1` while leaving `user`
visible; an all-success `count = 2` invocation pushes exactly the
loop-local copies of the live frame and ends with the stack unchanged. -/
theorem frame_shadows_and_restores_witness :
    ((setLoopLocals ⟨[("user", .str "y")]⟩ 1 3).get_local_var "index"
        = some (.num (Int.ofNat 1))) ∧
    ((setLoopLocals ⟨[("user", .str "y")]⟩ 1 3).get_local_var "user"
        = some (.str "y")) ∧
    (pushedBlocks (RepeatHelper.mk.call ⟨some (.num 2), some okBody, none⟩
          [⟨[("user", .str "y")]⟩]).trace
        = (List.range 2).map (fun i =>
            setLoopLocals (([⟨[("user", .str "y")]⟩] : List BlockContext).headD
              BlockContext.defaultBlock) i 2)) ∧
    ((RepeatHelper.mk.call ⟨some (.num 2), some okBody, none⟩
          [⟨[("user", .str "y")]⟩]).stack = [⟨[("user", .str "y")]⟩]) := by
  have hh := frame_shadows_and_restores RepeatHelper.mk ⟨some (.num 2), some okBody, none⟩
    [⟨[("user", .str "y")]⟩] (.num 2) 2 okBody rfl (by decide) rfl (fun _ => rfl)
  exact ⟨(hh.1 ⟨[("user", .str "y")]⟩ 1 3).1,
    hh.2.1 ⟨[("user", .str "y")]⟩ 1 3 "user" (by decide) (by decide) (by decide),
    hh.2.2.1, hh.2.2.2⟩

end HandlebarsRepeat
